import Mathlib

/-!
Shallow embedding of `src/backend/installer.py` (class `InstallerManager`)
from the Bottles repository, together with theorems settling the spec
claims about it.

Modelling conventions:
* External side-effecting calls (environment-manager mutations, downloads,
  process launches, GLib idle callbacks) are recorded as values of the
  `Effect` inductive; each embedded method returns the ordered list of
  effects it performs.
* Fallible external operations (network fetch, YAML parsing, the component
  manager's download) are oracles passed in as function arguments.
* Python dictionaries with a fixed schema become structures; the manifest's
  `Parameters` dict becomes an association list (Python dict keys are
  unique, and iteration order is insertion order).
* Python truthiness of an optional string (`None` and `""` are falsy) is
  `strTruthy`; truthiness of a list is non-emptiness.
* Machine-level concerns (threading of `RunAsync`, actual file contents on
  disk) are outside the embedding; the desktop-entry writer is modelled as
  a sequence of `f.write` calls with an explicit failure point, since the
  claims speak about partially-written files.
-/

/-- Constants standing for `globals.py` (`BottlesRepositories`, `Paths`),
which is outside the provided source tree.  Their concrete values never
matter to any claim; only the shape of the strings built from them does. -/
def BottlesRepositories_installers : String :=
  "https://raw.githubusercontent.com/bottlesdevs/programs/main"

def Paths_temp : String := "/tmp/bottles"

def Paths_applications : String := "/home/user/.local/share/applications"

def Paths_bottles : String := "/home/user/.local/share/bottles/bottles"

/-- A single-quote character, used in the desktop `Exec=` lines. -/
def squote : String := String.singleton (Char.ofNat 39)

/-- Python truthiness of an optional string: `None` and `""` are falsy. -/
def strTruthy : Option String → Bool
  | none => false
  | some s => s ≠ ""

/-- Python string interpolation of an optional value (`None` prints as
`"None"`). -/
def pyStr : Option String → String
  | none => "None"
  | some s => s

/-- A value persisted through `update_configuration` (Python values are
dynamically typed; the installer passes booleans for `Parameters` and
strings for `Programs`). -/
inductive PValue where
  | b (x : Bool)
  | s (x : String)
  | none
  deriving DecidableEq, Repr

/-- One observable call made by the installer to an external collaborator,
in program order. -/
inductive Effect where
  | installDxvk
  | installVkd3d
  | updateConfiguration (key : String) (value : PValue) (scope : String)
  | asyncInstallDependency (dep : String) (depDef : Option String)
  | download (url fileName : String)
  | runExecutable (filePath : String)
  | makedirs (path : String)
  | urlretrieve (url dest : String)
  | idleAddSetInstalled
  deriving DecidableEq, Repr

/-- The bottle configuration dictionary (`BottleConfig`), as read by the
installer.  `Parameters` is modelled as a total boolean map because the
code indexes it directly (`configuration.get("Parameters")["dxvk"]`),
which presumes the key is present. -/
structure BottleConfig where
  name : String
  path : String
  params : String → Bool
  installedDependencies : List String

/-- The manifest's `Executable` descriptor. -/
structure Executable where
  name : String
  file : String
  path : String
  arguments : Option String
  icon : Option String
  deriving DecidableEq, Repr

/-- One entry of the manifest's `Steps` list. -/
structure Step where
  action : String
  url : String
  file_name : String
  rename : Option String
  file_checksum : Option String
  arguments : Option String
  deriving DecidableEq, Repr

/-- The parsed installer manifest.  An absent `Dependencies`/`Steps` key
and an empty list are both falsy in Python, so both are modelled as `[]`. -/
structure Manifest where
  name : String
  description : String
  dependencies : List String
  parameters : List (String × Bool)
  executable : Executable
  steps : List Step
  deriving DecidableEq, Repr

/-- The slice of filesystem state the installer observes:
`os.path.exists` on directories and `os.path.isfile` on files. -/
structure FsState where
  dirs : List String
  files : List String

/-- Result of `get_installer`: plain text, a parsed manifest, or the
Python literal `False` (unavailable). -/
inductive InstallerResult where
  | plainText (s : String)
  | manifest (m : Manifest)
  | unavailable
  deriving DecidableEq, Repr

/-- `Modelled from the spec:` the environment manager's
`getEnvironmentPath(config) -> path` (`Runner().get_bottle_path`, defined
in `runner.py`, which is outside the provided source tree): the bottle's
directory under the bottles root. -/
def get_bottle_path (configuration : BottleConfig) : String :=
  Paths_bottles ++ "/" ++ configuration.path

/-- The manifest URL built by `get_installer`:
`"%s/%s/%s.yml" % (BottlesRepositories.installers, category, name)`. -/
def installer_url (installer_category installer_name : String) : String :=
  BottlesRepositories_installers ++ "/" ++ installer_category ++ "/"
    ++ installer_name ++ ".yml"

/-- `get_installer` (installer.py:48-79).  `conn` is the result of
`check_connection`; `fetch` models `urllib.request.urlopen(...).read()`
(`.error` = any exception during retrieval); `parse` models
`yaml.safe_load` (`.error` = a parse exception).  The returned
`Except` is the function's own exception behaviour towards its caller:
`.ok` means it returned a value; the bare `except` clause means the
`.error` constructor is never produced. -/
def get_installer (conn : Bool) (fetch : String → Except Unit String)
    (parse : String → Except Unit Manifest)
    (installer_name installer_category : String) (plain : Bool) :
    Except Unit InstallerResult :=
  if conn then
    match fetch (installer_url installer_category installer_name) with
    | .error _ => .ok .unavailable
    | .ok body =>
      if plain then .ok (.plainText body)
      else
        match parse body with
        | .error _ => .ok .unavailable
        | .ok m => .ok (.manifest m)
  else .ok .unavailable

/-- The per-bottle icons directory computed by `__download_icon` and
`__create_desktop_entry`. -/
def bottle_icons_path (configuration : BottleConfig) : String :=
  get_bottle_path configuration ++ "/icons"

/-- The icon destination path. -/
def icon_path (configuration : BottleConfig) (executable : Executable) :
    String :=
  bottle_icons_path configuration ++ "/" ++ pyStr executable.icon

/-- `__download_icon` (installer.py:81-93): returns the effects performed
against the filesystem/network, given the observed filesystem state. -/
def download_icon (fs : FsState) (configuration : BottleConfig)
    (executable : Executable) (manifest : Manifest) : List Effect :=
  let icon_url := BottlesRepositories_installers ++ "/data/"
    ++ manifest.name ++ "/" ++ pyStr executable.icon
  (if bottle_icons_path configuration ∈ fs.dirs then []
   else [.makedirs (bottle_icons_path configuration)])
  ++ (if icon_path configuration executable ∈ fs.files then []
      else [.urlretrieve icon_url (icon_path configuration executable)])

/-- `__install_dependencies` (installer.py:95-104).  `catalog` models
`self.__manager.supported_dependencies.get`. -/
def install_dependencies (catalog : String → Option String)
    (configuration : BottleConfig) : List String → List Effect
  | [] => []
  | dep :: rest =>
    if dep ∈ configuration.installedDependencies then
      install_dependencies catalog configuration rest
    else
      .asyncInstallDependency dep (catalog dep)
        :: install_dependencies catalog configuration rest

/-- The local file a step launches: `rename` if truthy, else `file_name`
(installer.py:118-121). -/
def step_file (st : Step) : String :=
  if strTruthy st.rename then pyStr st.rename else st.file_name

/-- The effects of one step of `__perform_steps`: unrecognized actions do
nothing; recognized ones attempt the download and launch the executable
only when the download succeeded. -/
def step_trace (downloadOk : Step → Bool) (st : Step) : List Effect :=
  if st.action = "install_exe" ∨ st.action = "install_msi" then
    .download st.url st.file_name
      :: (if downloadOk st then
            [.runExecutable (Paths_temp ++ "/" ++ step_file st)]
          else [])
  else []

/-- `__perform_steps` (installer.py:106-127).  `downloadOk` models the
component manager's `download` result (truthiness of its return value). -/
def perform_steps (downloadOk : Step → Bool) (configuration : BottleConfig) :
    List Step → List Effect
  | [] => []
  | st :: rest =>
    step_trace downloadOk st ++ perform_steps downloadOk configuration rest

/-- `__set_parameters` (installer.py:129-142).  Note the source's vkd3d
guard reads `parameters.get("vkd3d") and configuration.get("Parameters")["vkd3d"]`
— without the `not` that the dxvk branch has. -/
def set_parameters (configuration : BottleConfig)
    (parameters : List (String × Bool)) : List Effect :=
  (if parameters.lookup "dxvk" = some true
      ∧ configuration.params "dxvk" = false then [.installDxvk] else [])
  ++ (if parameters.lookup "vkd3d" = some true
      ∧ configuration.params "vkd3d" = true then [.installVkd3d] else [])
  ++ parameters.map (fun p => .updateConfiguration p.1 (.b p.2) "Parameters")

/-- `__set_executable_arguments` (installer.py:144-149). -/
def set_executable_arguments (configuration : BottleConfig)
    (executable : Executable) : List Effect :=
  [.updateConfiguration executable.file
    (match executable.arguments with
     | some a => .s a
     | none => .none)
    "Programs"]

/-- The desktop-entry destination path (installer.py:155-160):
`{applications}/{bottleName}--{manifestName}--{timestamp}.desktop`.
The timestamp (`datetime.now().timestamp()` interpolated into the format
string) is passed in as its rendered string. -/
def desktop_file_path (configuration : BottleConfig) (manifest : Manifest)
    (timestamp : String) : String :=
  Paths_applications ++ "/" ++ configuration.name ++ "--" ++ manifest.name
    ++ "--" ++ timestamp ++ ".desktop"

/-- The executable path interpolated into the `Exec=` line
(installer.py:166-171). -/
def desktop_ex_path (configuration : BottleConfig) (executable : Executable) :
    String :=
  Paths_bottles ++ "/" ++ configuration.path ++ "/drive_c/"
    ++ executable.path ++ "/" ++ executable.file

/-- The successive `f.write` calls of `__create_desktop_entry`
(installer.py:172-187), in order.  The icon fallback line faithfully lacks
the trailing newline, as in the source. -/
def desktop_entry_writes (configuration : BottleConfig) (manifest : Manifest)
    (executable : Executable) : List String :=
  [ "[Desktop Entry]\n",
    "Name=" ++ executable.name ++ "\n",
    "Exec=bottles -e " ++ squote ++ desktop_ex_path configuration executable
      ++ squote ++ " -b " ++ squote ++ configuration.name ++ squote ++ "\n",
    "Type=Application\n",
    "Terminal=false\n",
    "Categories=Application;\n",
    (if strTruthy executable.icon then
      "Icon=" ++ icon_path configuration executable ++ "\n"
     else "Icon=com.usebottles.bottles"),
    "Comment=" ++ manifest.description ++ "\n",
    "Actions=Configure;\n",
    "[Desktop Action Configure]\n",
    "Name=Configure in Bottles\n",
    "Exec=bottles -b " ++ squote ++ configuration.name ++ squote ++ "\n" ]

/-- Outcome of `__create_desktop_entry`: the content left at the
destination path (`none` = no file was ever created there), and whether an
exception propagated to the caller. -/
structure DesktopResult where
  fileAtDest : Option (String × String)
  raised : Bool
  deriving DecidableEq, Repr

/-- `__create_desktop_entry` (installer.py:151-187).  `env` is the list of
keys of `os.environ`.  `failAfter = some k` injects an I/O failure at the
`(k+1)`-th `f.write` call (if there is one); `none` means no failure.
`open(path, "w")` creates/truncates the destination immediately, and the
`with` block guarantees only that the handle is closed — the bytes already
written stay at the destination. -/
def create_desktop_entry (env : List String) (failAfter : Option Nat)
    (configuration : BottleConfig) (manifest : Manifest)
    (executable : Executable) (timestamp : String) : DesktopResult :=
  if "FLATPAK_ID" ∈ env then
    { fileAtDest := none, raised := false }
  else
    let writes := desktop_entry_writes configuration manifest executable
    let dest := desktop_file_path configuration manifest timestamp
    match failAfter with
    | some k =>
      if k < writes.length then
        { fileAtDest := some (dest, String.join (writes.take k)),
          raised := true }
      else
        { fileAtDest := some (dest, String.join writes), raised := false }
    | none =>
      { fileAtDest := some (dest, String.join writes), raised := false }

/-- `__async_install` (installer.py:189-226): the ordered effect trace and
whether the body raised.  When `get_installer` returns `False`
(`.unavailable`), `manifest.get("Dependencies")` on the boolean raises
`AttributeError` before any effect is performed; the `.plainText` case
(never produced with `plain=False`, which is how `__async_install` calls
it) would raise the same way. -/
def async_install (conn : Bool) (fetch : String → Except Unit String)
    (parse : String → Except Unit Manifest) (fs : FsState)
    (downloadOk : Step → Bool) (catalog : String → Option String)
    (env : List String) (failAfter : Option Nat) (timestamp : String)
    (configuration : BottleConfig) (installer_name installer_category : String)
    (widget : Bool) : List Effect × Bool :=
  match get_installer conn fetch parse installer_name installer_category false with
  | .ok (.manifest m) =>
    let t1 := if strTruthy m.executable.icon then
        download_icon fs configuration m.executable m else []
    let t2 := if m.dependencies ≠ [] then
        install_dependencies catalog configuration m.dependencies else []
    let t3 := if m.steps ≠ [] then
        perform_steps downloadOk configuration m.steps else []
    let t4 := if m.parameters ≠ [] then
        set_parameters configuration m.parameters else []
    let t5 := if strTruthy m.executable.arguments then
        set_executable_arguments configuration m.executable else []
    let d := create_desktop_entry env failAfter configuration m
        m.executable timestamp
    if d.raised then (t1 ++ t2 ++ t3 ++ t4 ++ t5, true)
    else (t1 ++ t2 ++ t3 ++ t4 ++ t5
        ++ (if widget then [.idleAddSetInstalled] else []), false)
  | _ => ([], true)

/-! ## Helper lemmas -/

theorem lookup_mem {parameters : List (String × Bool)} {k : String} {v : Bool}
    (h : parameters.lookup k = some v) : (k, v) ∈ parameters := by
  induction parameters with
  | nil => simp [List.lookup] at h
  | cons p rest ih =>
    obtain ⟨a, b⟩ := p
    by_cases hk : k = a
    · subst hk
      simp [List.lookup_cons] at h
      simp [h]
    · have hb : (k == a) = false := by simp [hk]
      rw [List.lookup_cons, hb] at h
      exact List.mem_cons_of_mem _ (ih h)

theorem count_installDxvk_updates (parameters : List (String × Bool)) :
    (parameters.map
      (fun p => Effect.updateConfiguration p.1 (.b p.2) "Parameters")).count
        Effect.installDxvk = 0 := by
  rw [List.count_eq_zero]
  simp

theorem perform_steps_append (downloadOk : Step → Bool)
    (configuration : BottleConfig) (a b : List Step) :
    perform_steps downloadOk configuration (a ++ b)
      = perform_steps downloadOk configuration a
        ++ perform_steps downloadOk configuration b := by
  induction a with
  | nil => rfl
  | cons st rest ih => simp [perform_steps, ih]

/-! ## Claims -/

/-- C1: the claim states that `__set_parameters` invokes `install_vkd3d`
exactly on the disabled→enabled transition (current `Parameters.vkd3d`
false, requested true) and never when already enabled.  The source
(installer.py:133) tests `parameters.get("vkd3d") and
configuration.get("Parameters")["vkd3d"]` — the `not` present in the dxvk
branch (installer.py:130) is missing — so the code does the opposite:
with the toggle requested and currently *false* no install fires, and with
it currently *true* the install fires.  This theorem evaluates the
embedded code at both inputs, exhibiting the bug. -/
theorem set_parameters_vkd3d_inverted :
    Effect.installVkd3d ∉
      set_parameters ⟨"game", "game", fun _ => false, []⟩ [("vkd3d", true)]
    ∧ Effect.installVkd3d ∈
      set_parameters ⟨"game", "game", fun k => k == "vkd3d", []⟩
        [("vkd3d", true)] := by
  constructor
  · simp [set_parameters, List.lookup]
  · simp [set_parameters, List.lookup]

/-- C2: applying a parameter map containing `dxvk = true` invokes the dxvk
install routine exactly once when the configuration's `Parameters.dxvk` is
currently false, and never when it is already true; in both cases the
value is persisted via `update_configuration` in the `Parameters` scope. -/
theorem set_parameters_dxvk_transition (configuration : BottleConfig)
    (parameters : List (String × Bool))
    (h : parameters.lookup "dxvk" = some true) :
    (configuration.params "dxvk" = false →
      (set_parameters configuration parameters).count Effect.installDxvk = 1
      ∧ Effect.updateConfiguration "dxvk" (.b true) "Parameters"
          ∈ set_parameters configuration parameters)
    ∧ (configuration.params "dxvk" = true →
      (set_parameters configuration parameters).count Effect.installDxvk = 0
      ∧ Effect.updateConfiguration "dxvk" (.b true) "Parameters"
          ∈ set_parameters configuration parameters) := by
  have hmem : Effect.updateConfiguration "dxvk" (.b true) "Parameters"
      ∈ parameters.map
        (fun p => Effect.updateConfiguration p.1 (.b p.2) "Parameters") :=
    List.mem_map_of_mem _ (lookup_mem h)
  have hv : (if parameters.lookup "vkd3d" = some true
      ∧ configuration.params "vkd3d" = true
      then [Effect.installVkd3d] else []).count Effect.installDxvk = 0 := by
    split <;> simp
  constructor
  · intro hf
    constructor
    · simp only [set_parameters, List.count_append, if_pos (And.intro h hf),
        count_installDxvk_updates, hv]
      simp
    · simp only [set_parameters, List.mem_append]
      exact Or.inr hmem
  · intro ht
    constructor
    · have : ¬ (parameters.lookup "dxvk" = some true
          ∧ configuration.params "dxvk" = false) := by
        rintro ⟨-, hc⟩
        rw [ht] at hc
        exact Bool.noConfusion hc
      simp only [set_parameters, List.count_append, if_neg this,
        count_installDxvk_updates, hv]
      simp
    · simp only [set_parameters, List.mem_append]
      exact Or.inr hmem

/-- C2 witness: a concrete run on `{"dxvk": true}` with `Parameters.dxvk`
currently false. -/
theorem set_parameters_dxvk_transition_witness :
    (set_parameters ⟨"game", "game", fun _ => false, []⟩
        [("dxvk", true)]).count Effect.installDxvk = 1
    ∧ Effect.updateConfiguration "dxvk" (.b true) "Parameters"
        ∈ set_parameters ⟨"game", "game", fun _ => false, []⟩
          [("dxvk", true)] :=
  (set_parameters_dxvk_transition ⟨"game", "game", fun _ => false, []⟩
    [("dxvk", true)] rfl).1 rfl

/-- C3: `get_installer` never raises to its caller (its bare `except`
clause means the `.error` constructor is unreachable); with no
connectivity it returns `False` immediately, and any retrieval or parse
failure also yields `False` after the diagnostic log. -/
theorem get_installer_never_raises (conn : Bool)
    (fetch : String → Except Unit String)
    (parse : String → Except Unit Manifest)
    (installer_name installer_category : String) (plain : Bool) :
    (∃ r, get_installer conn fetch parse installer_name installer_category
        plain = .ok r)
    ∧ (conn = false →
        get_installer conn fetch parse installer_name installer_category plain
          = .ok .unavailable)
    ∧ (∀ e, fetch (installer_url installer_category installer_name) = .error e →
        get_installer conn fetch parse installer_name installer_category plain
          = .ok .unavailable)
    ∧ (∀ body e, plain = false →
        fetch (installer_url installer_category installer_name) = .ok body →
        parse body = .error e →
        get_installer conn fetch parse installer_name installer_category plain
          = .ok .unavailable) := by
  refine ⟨?_, ?_, ?_, ?_⟩
  · cases hc : conn with
    | false => exact ⟨.unavailable, by simp [get_installer]⟩
    | true =>
      cases hf : fetch (installer_url installer_category installer_name) with
      | error e => exact ⟨.unavailable, by simp [get_installer, hf]⟩
      | ok body =>
        cases hp : plain with
        | true => exact ⟨.plainText body, by simp [get_installer, hf]⟩
        | false =>
          cases hy : parse body with
          | error e => exact ⟨.unavailable, by simp [get_installer, hf, hy]⟩
          | ok m => exact ⟨.manifest m, by simp [get_installer, hf, hy]⟩
  · intro hc
    simp [get_installer, hc]
  · intro e hf
    cases conn <;> simp [get_installer, hf]
  · intro body e hp hf hy
    subst hp
    cases conn <;> simp [get_installer, hf, hy]

/-- C3 witness: with connectivity down, the fetch returns `False` without
raising. -/
theorem get_installer_never_raises_witness :
    get_installer false (fun _ => .error ()) (fun _ => .error ())
      "epic-games-store" "Games" false = .ok .unavailable :=
  (get_installer_never_raises false (fun _ => .error ()) (fun _ => .error ())
    "epic-games-store" "Games" false).2.1 rfl

/-- C4: `__install_dependencies` submits an async install request exactly
for the dependencies not already in `Installed_Dependencies`, in list
order, pairing each with its catalog entry; already-present dependencies
are never re-submitted. -/
theorem install_dependencies_submits_missing (catalog : String → Option String)
    (configuration : BottleConfig) (dependencies : List String) :
    install_dependencies catalog configuration dependencies
      = (dependencies.filter
          (fun dep => dep ∉ configuration.installedDependencies)).map
        (fun dep => Effect.asyncInstallDependency dep (catalog dep)) := by
  induction dependencies with
  | nil => rfl
  | cons dep rest ih =>
    by_cases hd : dep ∈ configuration.installedDependencies <;>
      simp [install_dependencies, hd, ih]

/-- C5: `__perform_steps` processes steps strictly in declared order, and
a step with a recognized install action whose download fails contributes
only the download attempt — its process launch is skipped — while every
step before and after it is processed exactly as it would be alone. -/
theorem perform_steps_failure_isolation (downloadOk : Step → Bool)
    (configuration : BottleConfig) (pre post : List Step) (st : Step)
    (hact : st.action = "install_exe" ∨ st.action = "install_msi")
    (hfail : downloadOk st = false) :
    perform_steps downloadOk configuration (pre ++ st :: post)
      = perform_steps downloadOk configuration pre
        ++ [Effect.download st.url st.file_name]
        ++ perform_steps downloadOk configuration post := by
  have hstep : step_trace downloadOk st = [Effect.download st.url st.file_name] := by
    rcases hact with h | h <;> simp [step_trace, h, hfail]
  calc perform_steps downloadOk configuration (pre ++ st :: post)
      = perform_steps downloadOk configuration pre
        ++ perform_steps downloadOk configuration (st :: post) :=
        perform_steps_append downloadOk configuration pre (st :: post)
    _ = perform_steps downloadOk configuration pre
        ++ [Effect.download st.url st.file_name]
        ++ perform_steps downloadOk configuration post := by
        simp [perform_steps, hstep]

/-- C5 witness: a one-step manifest whose download fails, between empty
sibling lists. -/
theorem perform_steps_failure_isolation_witness :
    perform_steps (fun _ => false) ⟨"game", "game", fun _ => false, []⟩
      ([] ++ (⟨"install_exe", "https://x/setup.exe", "setup.exe",
        none, none, none⟩ : Step) :: [])
      = perform_steps (fun _ => false) ⟨"game", "game", fun _ => false, []⟩ []
        ++ [Effect.download "https://x/setup.exe" "setup.exe"]
        ++ perform_steps (fun _ => false)
            ⟨"game", "game", fun _ => false, []⟩ [] :=
  perform_steps_failure_isolation (fun _ => false)
    ⟨"game", "game", fun _ => false, []⟩ [] []
    ⟨"install_exe", "https://x/setup.exe", "setup.exe", none, none, none⟩
    (Or.inl rfl) rfl

/-- C6: `__download_icon` performs no `urlretrieve` when a file already
exists at the icon's destination path, and when the per-bottle icons
directory is absent it is created first — the `makedirs` call heads the
effect list, before any download. -/
theorem download_icon_cache_idempotent (fs : FsState)
    (configuration : BottleConfig) (executable : Executable)
    (manifest : Manifest) :
    (icon_path configuration executable ∈ fs.files →
      ∀ u p, Effect.urlretrieve u p
        ∉ download_icon fs configuration executable manifest)
    ∧ (bottle_icons_path configuration ∉ fs.dirs →
      ∃ rest, download_icon fs configuration executable manifest
        = Effect.makedirs (bottle_icons_path configuration) :: rest) := by
  constructor
  · intro h u p
    by_cases hd : bottle_icons_path configuration ∈ fs.dirs <;>
      simp [download_icon, h, hd]
  · intro hd
    by_cases hf : icon_path configuration executable ∈ fs.files
    · exact ⟨[], by simp [download_icon, hd, hf]⟩
    · exact ⟨[Effect.urlretrieve (BottlesRepositories_installers ++ "/data/"
          ++ manifest.name ++ "/" ++ pyStr executable.icon)
          (icon_path configuration executable)],
        by simp [download_icon, hd, hf]⟩

/-- C6 witness: with the icon file already present, no `urlretrieve` is
performed. -/
theorem download_icon_cache_idempotent_witness :
    Effect.urlretrieve "https://x/icon.png" "/tmp/icon.png"
      ∉ download_icon
        ⟨[], [icon_path ⟨"game", "game", fun _ => false, []⟩
          ⟨"Game", "setup.exe", "Program Files", none, some "icon.png"⟩]⟩
        ⟨"game", "game", fun _ => false, []⟩
        ⟨"Game", "setup.exe", "Program Files", none, some "icon.png"⟩
        ⟨"EpicStore", "Store", [],  [],
          ⟨"Game", "setup.exe", "Program Files", none, some "icon.png"⟩, []⟩ :=
  (download_icon_cache_idempotent _ _ _ _).1 (List.mem_singleton.mpr rfl)
    "https://x/icon.png" "/tmp/icon.png"

/-- C7 counterexample: the desktop-entry write is not all-or-nothing.  The
source opens the destination path directly (`with open(desktop_file, "w")`),
so a failure injected after the first `f.write` leaves a file at the
destination — here holding just `"[Desktop Entry]\n"` — falsifying
"no partially written entry file remains visible". -/
theorem create_desktop_entry_not_atomic :
    ¬ ((create_desktop_entry [] (some 1) ⟨"game", "game", fun _ => false, []⟩
        ⟨"EpicStore", "Store", [], [],
          ⟨"Game", "setup.exe", "Program Files", none, none⟩, []⟩
        ⟨"Game", "setup.exe", "Program Files", none, none⟩
        "1650000000.0").raised = true →
      (create_desktop_entry [] (some 1) ⟨"game", "game", fun _ => false, []⟩
        ⟨"EpicStore", "Store", [], [],
          ⟨"Game", "setup.exe", "Program Files", none, none⟩, []⟩
        ⟨"Game", "setup.exe", "Program Files", none, none⟩
        "1650000000.0").fileAtDest = none) := by
  intro hclaim
  exact absurd (hclaim rfl)
    (by simp [create_desktop_entry, desktop_entry_writes])

/-- C7 (amended): the `with`-block guarantees only handle cleanup, not
atomicity — when a failure hits the `(k+1)`-th write (outside a Flatpak
sandbox), the destination file remains, holding exactly the prefix written
so far, and the exception propagates. -/
theorem create_desktop_entry_partial_on_failure (env : List String) (k : Nat)
    (configuration : BottleConfig) (manifest : Manifest)
    (executable : Executable) (timestamp : String)
    (henv : "FLATPAK_ID" ∉ env)
    (hk : k < (desktop_entry_writes configuration manifest executable).length) :
    create_desktop_entry env (some k) configuration manifest executable
        timestamp
      = { fileAtDest := some
            (desktop_file_path configuration manifest timestamp,
             String.join ((desktop_entry_writes configuration manifest
               executable).take k)),
          raised := true } := by
  simp [create_desktop_entry, henv, hk]

/-- C7 witness: a failure after the first write leaves that one line at
the destination. -/
theorem create_desktop_entry_partial_on_failure_witness :
    create_desktop_entry [] (some 1) ⟨"game", "game", fun _ => false, []⟩
        ⟨"EpicStore", "Store", [], [],
          ⟨"Game", "setup.exe", "Program Files", none, none⟩, []⟩
        ⟨"Game", "setup.exe", "Program Files", none, none⟩ "1650000000.0"
      = { fileAtDest := some
            (desktop_file_path ⟨"game", "game", fun _ => false, []⟩
              ⟨"EpicStore", "Store", [], [],
                ⟨"Game", "setup.exe", "Program Files", none, none⟩, []⟩
              "1650000000.0",
             String.join ((desktop_entry_writes
               ⟨"game", "game", fun _ => false, []⟩
               ⟨"EpicStore", "Store", [], [],
                 ⟨"Game", "setup.exe", "Program Files", none, none⟩, []⟩
               ⟨"Game", "setup.exe", "Program Files", none, none⟩).take 1)),
          raised := true } :=
  create_desktop_entry_partial_on_failure [] 1 _ _ _ _ (by simp)
    (by simp [desktop_entry_writes])

/-- C8: under the Flatpak sandbox marker (`FLATPAK_ID` in the process
environment), `__create_desktop_entry` returns before opening the file: no
desktop entry is created and no exception is raised. -/
theorem create_desktop_entry_flatpak_skip (env : List String)
    (failAfter : Option Nat) (configuration : BottleConfig)
    (manifest : Manifest) (executable : Executable) (timestamp : String)
    (h : "FLATPAK_ID" ∈ env) :
    create_desktop_entry env failAfter configuration manifest executable
      timestamp = { fileAtDest := none, raised := false } := by
  simp [create_desktop_entry, h]

/-- C8 witness: a concrete sandboxed environment. -/
theorem create_desktop_entry_flatpak_skip_witness :
    create_desktop_entry ["FLATPAK_ID"] none
        ⟨"game", "game", fun _ => false, []⟩
        ⟨"EpicStore", "Store", [], [],
          ⟨"Game", "setup.exe", "Program Files", none, none⟩, []⟩
        ⟨"Game", "setup.exe", "Program Files", none, none⟩ "1650000000.0"
      = { fileAtDest := none, raised := false } :=
  create_desktop_entry_flatpak_skip _ _ _ _ _ _ (List.mem_singleton.mpr rfl)

/-- C9: the desktop-entry path is
`{applications}/{bottleName}--{manifestName}--{timestamp}.desktop`, so two
installations into the same bottle of manifests with identical `Name` at
different timestamps produce distinct paths. -/
theorem desktop_file_path_distinct_timestamps (configuration : BottleConfig)
    (manifest1 manifest2 : Manifest) (t1 t2 : String)
    (hname : manifest1.name = manifest2.name) (ht : t1 ≠ t2) :
    desktop_file_path configuration manifest1 t1
      ≠ desktop_file_path configuration manifest2 t2 := by
  intro h
  apply ht
  unfold desktop_file_path at h
  rw [hname] at h
  have h2 := congrArg String.data h
  simp only [String.data_append, List.append_assoc] at h2
  have h3 := List.append_cancel_left (List.append_cancel_left
    (List.append_cancel_left (List.append_cancel_left
      (List.append_cancel_left (List.append_cancel_left h2)))))
  exact String.ext (List.append_cancel_right h3)

/-- C9 witness: same bottle, same manifest `Name`, two timestamps. -/
theorem desktop_file_path_distinct_timestamps_witness :
    desktop_file_path ⟨"game", "game", fun _ => false, []⟩
        ⟨"EpicStore", "Store", [], [],
          ⟨"Game", "setup.exe", "Program Files", none, none⟩, []⟩
        "1650000000.0"
      ≠ desktop_file_path ⟨"game", "game", fun _ => false, []⟩
        ⟨"EpicStore", "Store again", [], [],
          ⟨"Game", "setup.exe", "Program Files", none, none⟩, []⟩
        "1650000099.0" :=
  desktop_file_path_distinct_timestamps _ _ _ _ _ rfl (by decide)

/-- C10: when `get_installer` hands back `False`, `__async_install`
dies at `manifest.get("Dependencies")` — an `AttributeError` on a boolean —
before performing any effect: no icon download, no dependency submission,
no steps, no configuration update, no desktop entry, and the widget
callback never fires. -/
theorem async_install_unavailable_no_effects (conn : Bool)
    (fetch : String → Except Unit String)
    (parse : String → Except Unit Manifest) (fs : FsState)
    (downloadOk : Step → Bool) (catalog : String → Option String)
    (env : List String) (failAfter : Option Nat) (timestamp : String)
    (configuration : BottleConfig) (installer_name installer_category : String)
    (widget : Bool)
    (h : get_installer conn fetch parse installer_name installer_category false
      = .ok .unavailable) :
    async_install conn fetch parse fs downloadOk catalog env failAfter
        timestamp configuration installer_name installer_category widget
      = ([], true)
    ∧ Effect.idleAddSetInstalled
        ∉ (async_install conn fetch parse fs downloadOk catalog env failAfter
            timestamp configuration installer_name installer_category
            widget).1 := by
  have he : async_install conn fetch parse fs downloadOk catalog env failAfter
      timestamp configuration installer_name installer_category widget
      = ([], true) := by
    unfold async_install
    rw [h]
  exact ⟨he, by rw [he]; simp⟩

/-- C10 witness: no connectivity, so the fetch yields `False` and the
async body raises with an empty effect trace. -/
theorem async_install_unavailable_no_effects_witness :
    async_install false (fun _ => .error ()) (fun _ => .error ()) ⟨[], []⟩
        (fun _ => false) (fun _ => none) [] none "1650000000.0"
        ⟨"game", "game", fun _ => false, []⟩ "epic-games-store" "Games" true
      = ([], true) :=
  (async_install_unavailable_no_effects false (fun _ => .error ())
    (fun _ => .error ()) ⟨[], []⟩ (fun _ => false) (fun _ => none) [] none
    "1650000000.0" ⟨"game", "game", fun _ => false, []⟩ "epic-games-store"
    "Games" true rfl).1
